import Mathlib

/-!
Verification of the findings-aggregation and compliance-classification core of
`vccollections.py` (Veracode collections report generator).

The Python source is shallowly embedded: dictionaries with the fixed keys
`sev0` .. `sev5` become the structure `SevMap`, raw finding records become the
structure `Finding` (optional dictionary fields become `Option`), and code that
can raise a Python exception (`KeyError` on a dictionary subscript) returns
`Option`, with `none` standing for the raised exception.
-/

/-- `finding_status` substructure of a raw finding (always present). -/
structure FindingStatus where
  status : String
  resolution : String
deriving DecidableEq

/-- `cwe` substructure of `finding_details`; when the `cwe` dictionary is
present its `id` and `name` entries are present. -/
structure CWE where
  id : Nat
  name : String
deriving DecidableEq

/-- `cve` substructure of `finding_details` (SCA findings). The `name` and
`cvss` entries are present whenever the `cve` dictionary is; `id` is only ever
read through `.get` in the source, so it is kept optional. CVSS scores are
floats in the platform data; only their rendered text matters here, so the
score is carried as a numeral. -/
structure CVE where
  id : Option Nat
  name : String
  cvss : Nat
deriving DecidableEq

/-- `finding_details` substructure of a raw finding. `severity` is always
present; the scan-type-specific fields are optional dictionary entries. -/
structure FindingDetails where
  severity : Nat
  cwe : Option CWE
  file_path : Option String
  file_line_number : Option Nat
  path : Option String
  vulnerable_parameter : Option String
  cve : Option CVE
  component_filename : Option String
  version : Option String
  input_vector : Option String
deriving DecidableEq

/-- One raw finding record, as consumed by the report script. -/
structure Finding where
  issue_id : Option Nat
  scan_type : String
  violates_policy : Bool
  description : Option String
  finding_details : FindingDetails
  finding_status : FindingStatus
deriving DecidableEq

/-- A dictionary with exactly the six keys `sev5` .. `sev0`, in the insertion
order used by the source (`sev5` first). -/
structure SevMap (α : Type) where
  sev5 : α
  sev4 : α
  sev3 : α
  sev2 : α
  sev1 : α
  sev0 : α
deriving DecidableEq

/-- All-zero severity histogram (the empty starting dictionary of
`get_findings`, read through `.get(key, 0)`). -/
def sevMapZero : SevMap Nat := ⟨0, 0, 0, 0, 0, 0⟩

/-- Value of `'sev' + str(k)` in a severity histogram; out-of-range keys do not
occur in a `SevMap` and give the junk value 0. -/
def sevMapGet (m : SevMap Nat) (k : Nat) : Nat :=
  if k = 5 then m.sev5
  else if k = 4 then m.sev4
  else if k = 3 then m.sev3
  else if k = 2 then m.sev2
  else if k = 1 then m.sev1
  else if k = 0 then m.sev0
  else 0

/-- Sum of the six tiers of a severity histogram, in the key iteration order
`sev5` .. `sev0` used by the source. -/
def sevMapSum (m : SevMap Nat) : Nat :=
  m.sev5 + m.sev4 + m.sev3 + m.sev2 + m.sev1 + m.sev0

/-- The `severity` label dictionary (`vccollections.py` lines 68-75); a lookup
`severity[n]` for `n` outside 0-5 raises `KeyError`, modelled as `none`. -/
def severityLabel (n : Nat) : Option String :=
  if n = 5 then some "Very High"
  else if n = 4 then some "High"
  else if n = 3 then some "Medium"
  else if n = 2 then some "Low"
  else if n = 1 then some "Very Low"
  else if n = 0 then some "Informational"
  else none

/-- `get_finding_severity` (lines 176-177). -/
def get_finding_severity (f : Finding) : Nat :=
  f.finding_details.severity

/-- Sort key relation of `app_findings.sort(key=get_finding_severity,
reverse=True)`: `a` may come before `b` when `a`'s severity is at least
`b`'s. -/
def sevGE (a b : Finding) : Prop :=
  get_finding_severity b ≤ get_finding_severity a

instance : DecidableRel sevGE := fun a b =>
  Nat.decLe (get_finding_severity b) (get_finding_severity a)

/-- The in-place stable descending sort of line 196. Python's `list.sort` is
stable also with `reverse=True`; a stable sort is modelled by insertion sort
with a reflexive comparison, which keeps ties in their original order. -/
def sortDescBySeverity (l : List Finding) : List Finding :=
  List.insertionSort sevGE l

/-- The findings of one severity tier, in source order. -/
def sevFilter (k : Nat) (l : List Finding) : List Finding :=
  l.filter (fun f => decide (get_finding_severity f = k))

/-- The policy-violating findings of one severity tier, in source order. -/
def polFilter (k : Nat) (l : List Finding) : List Finding :=
  l.filter (fun f => f.violates_policy && decide (get_finding_severity f = k))

/-- Concatenation of the six severity tiers, highest first: this is exactly the
stable descending-severity sort of a list whose severities all lie in 0-5. -/
def sevBuckets (l : List Finding) : List Finding :=
  sevFilter 5 l ++ sevFilter 4 l ++ sevFilter 3 l ++ sevFilter 2 l ++
    sevFilter 1 l ++ sevFilter 0 l

/-- The six empty bucket lists set up in lines 183-195. -/
def emptyBuckets : SevMap (List Finding) := ⟨[], [], [], [], [], []⟩

/-- `somedict['sev' + str(finding_severity)].append(finding)` (lines 200, 202):
the dictionary has exactly the keys `sev0` .. `sev5`, so a severity outside
0-5 raises `KeyError` (`none`). -/
def bucketAppend (m : SevMap (List Finding)) (f : Finding) :
    Option (SevMap (List Finding)) :=
  if get_finding_severity f = 5 then some { m with sev5 := m.sev5 ++ [f] }
  else if get_finding_severity f = 4 then some { m with sev4 := m.sev4 ++ [f] }
  else if get_finding_severity f = 3 then some { m with sev3 := m.sev3 ++ [f] }
  else if get_finding_severity f = 2 then some { m with sev2 := m.sev2 ++ [f] }
  else if get_finding_severity f = 1 then some { m with sev1 := m.sev1 ++ [f] }
  else if get_finding_severity f = 0 then some { m with sev0 := m.sev0 ++ [f] }
  else none

/-- The bucket-filling loop of lines 197-202: every finding is appended to its
severity bucket of `allfindingsbysev`, and additionally to the matching bucket
of `policyfindingsbysev` when it violates policy. -/
def fillBuckets :
    List Finding → SevMap (List Finding) → SevMap (List Finding) →
      Option (SevMap (List Finding) × SevMap (List Finding))
  | [], allB, polB => some (allB, polB)
  | f :: rest, allB, polB =>
    match bucketAppend allB f with
    | none => none
    | some allB' =>
      match (if f.violates_policy then bucketAppend polB f else some polB) with
      | none => none
      | some polB' => fillBuckets rest allB' polB'

/-- The loops of lines 204-211 convert each bucket list into its length. -/
def bucketLens (m : SevMap (List Finding)) : SevMap Nat :=
  ⟨m.sev5.length, m.sev4.length, m.sev3.length, m.sev2.length,
    m.sev1.length, m.sev0.length⟩

/-- Per-application summary assembled in lines 213-218. -/
structure AppSummary where
  findings_by_severity : SevMap Nat
  policy_findings_by_severity : SevMap Nat
  total_findings : Nat
  total_policy_findings : Nat
  app_findings : List Finding
deriving DecidableEq

/-- `get_app_profile_summary_data` (lines 180-218): stable-sort the findings by
severity descending, bucket them by severity (all findings, and the
policy-violating subset), then return the histograms of bucket lengths, the
totals, and the sorted finding list. `total_policy_findings` is accumulated as
the sum of the policy bucket lengths (lines 207-211). A severity outside 0-5
raises `KeyError` inside the loop, modelled as `none`. -/
def get_app_profile_summary_data (app_findings : List Finding) :
    Option AppSummary :=
  match fillBuckets (sortDescBySeverity app_findings) emptyBuckets emptyBuckets with
  | none => none
  | some (allB, polB) =>
    some { findings_by_severity := bucketLens allB
         , policy_findings_by_severity := bucketLens polB
         , total_findings := (sortDescBySeverity app_findings).length
         , total_policy_findings := sevMapSum (bucketLens polB)
         , app_findings := sortDescBySeverity app_findings }

/-- `update_collection_findings_by_sev` (lines 221-228): tier-wise addition of
an application histogram into the collection histogram; the collection side is
read through `.get(key, 0)`, absorbed here by starting from `sevMapZero`. -/
def update_collection_findings_by_sev (collection_summary app_findings_summary : SevMap Nat) :
    SevMap Nat :=
  ⟨collection_summary.sev5 + app_findings_summary.sev5,
   collection_summary.sev4 + app_findings_summary.sev4,
   collection_summary.sev3 + app_findings_summary.sev3,
   collection_summary.sev2 + app_findings_summary.sev2,
   collection_summary.sev1 + app_findings_summary.sev1,
   collection_summary.sev0 + app_findings_summary.sev0⟩

/-- The per-application loop of `get_findings` (lines 247-259), starting from
the findings already fetched per application guid: summarise each
application's findings and fold the two collection-level histograms. The
`collection_summary` / `collection_policy_summary` results are returned
separately, modelling the two `pop` calls of `get_collection_information`
(lines 157-158). -/
def get_findings_aux :
    List (String × List Finding) → List (String × AppSummary) →
      SevMap Nat → SevMap Nat →
      Option (List (String × AppSummary) × SevMap Nat × SevMap Nat)
  | [], acc, cs, cps => some (acc, cs, cps)
  | (app, fs) :: rest, acc, cs, cps =>
    match get_app_profile_summary_data fs with
    | none => none
    | some s =>
      get_findings_aux rest (acc ++ [(app, s)])
        (update_collection_findings_by_sev cs s.findings_by_severity)
        (update_collection_findings_by_sev cps s.policy_findings_by_severity)

/-- `get_findings` (lines 231-263) on the per-application fetched finding
lists. -/
def get_findings (apps : List (String × List Finding)) :
    Option (List (String × AppSummary) × SevMap Nat × SevMap Nat) :=
  get_findings_aux apps [] sevMapZero sevMapZero

/-- Python `str.capitalize()`: upper-case the first character, lower-case all
remaining characters. Used on status, resolution and scan-type text. -/
def pyCapitalize (s : String) : String :=
  match s.data with
  | [] => ""
  | c :: cs => String.mk (c.toUpper :: cs.map Char.toLower)

/-- Title-case each character that starts a space-separated word, lower-case
the rest of each word. -/
def titleCaseChars : List Char → Bool → List Char
  | [], _ => []
  | c :: cs, atWordStart =>
    if c = ' ' then c :: titleCaseChars cs true
    else (if atWordStart then c.toUpper else c.toLower) :: titleCaseChars cs false

/-- Modelled from the spec: "Status and resolution text are rendered in title
case" / "title case (every word capitalized)". This is the transformation the
spec describes (capitalize every word), used only to compare against what the
source actually computes. -/
def specTitleCase (s : String) : String :=
  String.mk (titleCaseChars s.data true)

/-- Rendering of an optional integer dictionary entry read through
`.get(key, '')`: `str` of the value when present, the empty string when
absent (`wrap_row_data` stringifies numeric values). -/
def optCell : Option Nat → String
  | some n => toString n
  | none => ""

/-- `static_findings_data_row` (lines 901-912). The `cwe` dictionary is
subscripted directly (`['cwe']['id']`), so a missing CWE raises `KeyError`
(`none`); likewise `severity[...]` raises for a severity outside 0-5. The
optional fields `issue_id`, `file_path` and `file_line_number` are read
through `.get(..., '')`. Cells are modelled as their rendered text
(`wrap_row_data` only wraps each cell in a `Paragraph`). -/
def static_findings_data_row (f : Finding) : Option (List String) :=
  match severityLabel (get_finding_severity f), f.finding_details.cwe with
  | some lbl, some c =>
    some [optCell f.issue_id, lbl, toString c.id, c.name,
          f.finding_details.file_path.getD "",
          optCell f.finding_details.file_line_number,
          pyCapitalize f.finding_status.status,
          pyCapitalize f.finding_status.resolution]
  | _, _ => none

/-- `dyanmic_findings_data_row` (lines 915-926; the misspelling is the
source's). Direct `cwe` subscripting raises on a missing CWE; `path` and
`vulnerable_parameter` degrade to the empty string. -/
def dyanmic_findings_data_row (f : Finding) : Option (List String) :=
  match severityLabel (get_finding_severity f), f.finding_details.cwe with
  | some lbl, some c =>
    some [optCell f.issue_id, lbl, toString c.id, c.name,
          f.finding_details.path.getD "",
          f.finding_details.vulnerable_parameter.getD "",
          pyCapitalize f.finding_status.status,
          pyCapitalize f.finding_status.resolution]
  | _, _ => none

/-- `sca_findings_data_row` (lines 929-941). Here the `cwe` entries are read
through `.get` (empty string when absent), but `['cve']['name']` and
`['cve']['cvss']` are subscripted directly, so a missing CVE raises. -/
def sca_findings_data_row (f : Finding) : Option (List String) :=
  match f.finding_details.cve, severityLabel (get_finding_severity f) with
  | some cv, some lbl =>
    some [(match f.finding_details.cwe with | some c => toString c.id | none => ""),
          (match f.finding_details.cwe with | some c => c.name | none => ""),
          cv.name, toString cv.cvss, lbl,
          f.finding_details.component_filename.getD "",
          f.finding_details.version.getD "",
          pyCapitalize f.finding_status.status,
          pyCapitalize f.finding_status.resolution]
  | _, _ => none

/-- `manual_findings_data_row` (lines 944-955). Direct subscripting of `cwe`
and of `f['description']` raises when either is missing; `input_vector`
degrades to the empty string. -/
def manual_findings_data_row (f : Finding) : Option (List String) :=
  match severityLabel (get_finding_severity f), f.finding_details.cwe, f.description with
  | some lbl, some c, some d =>
    some [optCell f.issue_id, lbl, toString c.id, c.name,
          f.finding_details.input_vector.getD "", d,
          pyCapitalize f.finding_status.status,
          pyCapitalize f.finding_status.resolution]
  | _, _, _ => none

/-- The known scan types of the `match` statements (lines 811-819). -/
def knownScanTypes : List String := ["STATIC", "DYNAMIC", "SCA", "MANUAL"]

/-- The per-finding `match scan_type` of `profile_details_section`
(lines 808-819): a known scan type dispatches to its row builder; an unknown
scan type leaves `data_row` as the initial empty list and raises nothing. -/
def data_row_for (f : Finding) : Option (List String) :=
  if f.scan_type = "STATIC" then static_findings_data_row f
  else if f.scan_type = "DYNAMIC" then dyanmic_findings_data_row f
  else if f.scan_type = "SCA" then sca_findings_data_row f
  else if f.scan_type = "MANUAL" then manual_findings_data_row f
  else some []

/-- Lines 809-810: create the (insertion-ordered) dictionary entry for a scan
type the first time it is seen, with an empty row list. -/
def ensureKey (arr : List (String × List (List String))) (st : String) :
    List (String × List (List String)) :=
  if arr.any (fun p => p.1 = st) then arr else arr ++ [(st, [])]

/-- Line 821: `findingsTableArray[scan_type].append(data_row)`. -/
def appendRow (arr : List (String × List (List String))) (st : String)
    (row : List String) : List (String × List (List String)) :=
  arr.map (fun p => if p.1 = st then (p.1, p.2 ++ [row]) else p)

/-- The row-collection loop of `profile_details_section` (lines 806-821):
ensure the scan-type key exists, build the finding's data row (propagating a
raised exception as `none`), and append it only when it is non-empty. -/
def collectRowsAux :
    List (String × List (List String)) → List Finding →
      Option (List (String × List (List String)))
  | arr, [] => some arr
  | arr, f :: rest =>
    match data_row_for f with
    | none => none
    | some row =>
      collectRowsAux
        (if 0 < row.length then appendRow (ensureKey arr f.scan_type) f.scan_type row
         else ensureKey arr f.scan_type) rest

/-- The scan-type-to-rows dictionary built by `profile_details_section` for one
application's findings. -/
def collectRows (findings : List Finding) :
    Option (List (String × List (List String))) :=
  collectRowsAux [] findings

/-- Lines 822-826: a detailed-findings table is generated for a scan type only
when its collected row list has strictly more than one entry. -/
def tables_rendered (arr : List (String × List (List String))) :
    List (String × List (List String)) :=
  arr.filter (fun p => decide (1 < p.2.length))

/-- One data row of `write_csv_report` (lines 1196-1215). All optional fields
are read defensively through `.get`, so only the `severity[...]` lookup can
raise. -/
def csv_finding_row (profileName : String) (ap : Finding) :
    Option (List String) :=
  match severityLabel (get_finding_severity ap) with
  | none => none
  | some lbl =>
    some [profileName,
          optCell ap.issue_id,
          pyCapitalize ap.scan_type,
          lbl,
          (match ap.finding_details.cwe with | some c => toString c.id | none => ""),
          (match ap.finding_details.cwe with | some c => c.name | none => ""),
          ap.finding_details.file_path.getD "",
          optCell ap.finding_details.file_line_number,
          ap.finding_details.path.getD "",
          ap.finding_details.vulnerable_parameter.getD "",
          (match ap.finding_details.cve with
           | some cv => optCell cv.id
           | none => ""),
          (match ap.finding_details.cve with | some cv => cv.name | none => ""),
          ap.finding_details.component_filename.getD "",
          ap.finding_details.version.getD "",
          ap.finding_details.input_vector.getD "",
          ap.description.getD "",
          pyCapitalize ap.finding_status.status,
          pyCapitalize ap.finding_status.resolution]

/-- The inner `for ap in app_findings` loop of `write_csv_report`: one CSV data
row per finding record, in order. -/
def csv_rows_for_findings (profileName : String) :
    List Finding → Option (List (List String))
  | [] => some []
  | f :: rest =>
    match csv_finding_row profileName f, csv_rows_for_findings profileName rest with
    | some r, some rs => some (r :: rs)
    | _, _ => none

/-- The `for profile in findings_list` loop of `write_csv_report`
(lines 1191-1216): profiles keyed `collection_summary` are skipped and every
finding of every other profile contributes one data row. `assetName` resolves
`profileData["asset_info"]["name"]` for a profile key. -/
def write_csv_data_rows (assetName : String → String) :
    List (String × AppSummary) → Option (List (List String))
  | [] => some []
  | (k, s) :: rest =>
    if k = "collection_summary" then write_csv_data_rows assetName rest
    else
      match csv_rows_for_findings (assetName k) s.app_findings,
            write_csv_data_rows assetName rest with
      | some rows, some later => some (rows ++ later)
      | _, _ => none

/-- Number of finding records contained in the per-application `app_findings`
lists of the structured JSON dump: `json.dump(collection_info, outfile)`
(line 1324) serialises `collection_info` verbatim, so the dump's finding lists
are exactly the `app_findings` lists of `findings_list`. -/
def json_dump_finding_count (fl : List (String × AppSummary)) : Nat :=
  (fl.map (fun p => p.2.app_findings.length)).sum

/-- Icon path constants (lines 100-103 and 750-753). -/
def didnotpassicon : String := "resources/fail.png"

/-- Icon shown for a conditionally passing asset. -/
def conditionalicon : String := "resources/conditional.png"

/-- Icon shown for a passing asset. -/
def passicon : String := "resources/pass.png"

/-- Icon shown for an asset that has not been assessed. -/
def notassessicon : String := "resources/notassessed.png"

/-- The four per-asset compliance states of the report. -/
inductive ComplianceState
  | NOT_ASSESSED
  | DID_NOT_PASS
  | CONDITIONAL_PASS
  | PASSED
deriving DecidableEq

/-- The policy-evaluation attributes of one asset record consumed by the
classifier. -/
structure AssetAttributes where
  policy_passed_rules : Bool
  policy_passed_scan_requirements : Bool
  policy_in_grace_period : Bool
  last_completed_scan_date : Option String
deriving DecidableEq

/-- The `display_icon` decision chain of `profile_summary_section`
(lines 756-767), verbatim from the source: no completed scan date gives the
not-assessed icon; otherwise, when scan requirements passed, rules decide
pass, grace period decides conditional, else fail; failed scan requirements
give fail. -/
def profile_summary_display_icon (a : AssetAttributes) : String :=
  if a.last_completed_scan_date = none then notassessicon
  else if a.policy_passed_scan_requirements then
    (if a.policy_passed_rules then passicon
     else if a.policy_in_grace_period then conditionalicon
     else didnotpassicon)
  else didnotpassicon

/-- Modelled from the spec: the classifier's decision rule written exactly in
the spec's priority order (first match wins): null scan date, then failed scan
requirements, then passed rules, then grace period, then fail. -/
def classify_asset_spec (a : AssetAttributes) : ComplianceState :=
  if a.last_completed_scan_date = none then ComplianceState.NOT_ASSESSED
  else if a.policy_passed_scan_requirements = false then ComplianceState.DID_NOT_PASS
  else if a.policy_passed_rules = true then ComplianceState.PASSED
  else if a.policy_in_grace_period = true then ComplianceState.CONDITIONAL_PASS
  else ComplianceState.DID_NOT_PASS

/-- The icon each compliance state displays. -/
def stateIcon : ComplianceState → String
  | ComplianceState.NOT_ASSESSED => notassessicon
  | ComplianceState.DID_NOT_PASS => didnotpassicon
  | ComplianceState.CONDITIONAL_PASS => conditionalicon
  | ComplianceState.PASSED => passicon

/-- A profile entry of `findings_list` is well formed when its key is not the
reserved `collection_summary` key and its summary was produced by
`get_app_profile_summary_data` (severities in range, total equal to the length
of the stored finding list). -/
@[reducible]
def entryWF (q : String × AppSummary) : Prop :=
  q.1 ≠ "collection_summary" ∧
    (∀ f ∈ q.2.app_findings, get_finding_severity f ≤ 5) ∧
    q.2.total_findings = q.2.app_findings.length

/-- A minimal finding record with the given severity, policy flag and scan
type, used for concrete evaluations. -/
def mkFinding (sev : Nat) (vp : Bool) (stype : String) : Finding :=
  { issue_id := none
  , scan_type := stype
  , violates_policy := vp
  , description := none
  , finding_details :=
      { severity := sev, cwe := none, file_path := none, file_line_number := none
      , path := none, vulnerable_parameter := none, cve := none
      , component_filename := none, version := none, input_vector := none }
  , finding_status := { status := "OPEN", resolution := "UNRESOLVED" } }

/-- The spec's ten-finding scenario: severities [5,5,4,3,3,3,2,1,0,0] with
policy violations at severities [5,3,3,2]. -/
def ex10 : List Finding :=
  [mkFinding 5 true "STATIC", mkFinding 5 false "STATIC",
   mkFinding 4 false "STATIC", mkFinding 3 true "STATIC",
   mkFinding 3 true "STATIC", mkFinding 3 false "STATIC",
   mkFinding 2 true "STATIC", mkFinding 1 false "STATIC",
   mkFinding 0 false "STATIC", mkFinding 0 false "STATIC"]

/-- A malformed finding with severity 6 (outside 0-5). -/
def exBad6 : Finding := mkFinding 6 false "STATIC"

/-- A static finding with no `cwe` entry (and no other optional fields). -/
def exNoCwe : Finding := mkFinding 3 false "STATIC"

/-- A finding with an unknown scan type. -/
def funk : Finding := mkFinding 2 false "UNKNOWN"

/-- A fully populated static finding used for concrete evaluations. -/
def fstat3 : Finding :=
  { issue_id := some 101
  , scan_type := "STATIC"
  , violates_policy := true
  , description := none
  , finding_details :=
      { severity := 3, cwe := some ⟨89, "Improper Neutralization"⟩
      , file_path := some "src/app.c", file_line_number := some 42
      , path := none, vulnerable_parameter := none, cve := none
      , component_filename := none, version := none, input_vector := none }
  , finding_status := { status := "OPEN", resolution := "UNRESOLVED" } }

/-- The document table row `static_findings_data_row` builds for `fstat3`. -/
def row_fstat3 : List String :=
  ["101", "Medium", "89", "Improper Neutralization", "src/app.c", "42",
   "Open", "Unresolved"]

/-- One-application input for `get_findings`. -/
def apps0 : List (String × List Finding) := [("appA", [fstat3])]

/-- The summary `get_app_profile_summary_data` produces for `[fstat3]`. -/
def summary0 : AppSummary :=
  { findings_by_severity := ⟨0, 0, 1, 0, 0, 0⟩
  , policy_findings_by_severity := ⟨0, 0, 1, 0, 0, 0⟩
  , total_findings := 1
  , total_policy_findings := 1
  , app_findings := [fstat3] }

/-- A finding whose status and resolution are multi-word strings. -/
def exFP : Finding :=
  { issue_id := some 7
  , scan_type := "STATIC"
  , violates_policy := false
  , description := none
  , finding_details :=
      { severity := 5, cwe := some ⟨79, "Cross-site Scripting"⟩
      , file_path := none, file_line_number := none, path := none
      , vulnerable_parameter := none, cve := none, component_filename := none
      , version := none, input_vector := none }
  , finding_status :=
      { status := "FALSE POSITIVE", resolution := "POTENTIAL FALSE POSITIVE" } }

/-- A static finding whose optional fields are all absent but whose required
parts (CWE, CVE, description) are present. -/
def exAllOpt : Finding :=
  { issue_id := none
  , scan_type := "STATIC"
  , violates_policy := false
  , description := some "manual test description"
  , finding_details :=
      { severity := 4, cwe := some ⟨22, "Path Traversal"⟩
      , file_path := none, file_line_number := none, path := none
      , vulnerable_parameter := none
      , cve := some { id := none, name := "CVE-2021-0001", cvss := 8 }
      , component_filename := none, version := none, input_vector := none }
  , finding_status := { status := "OPEN", resolution := "ADDRESSED" } }

/-- Concrete histogram for fold evaluations. -/
def mA : SevMap Nat := ⟨1, 2, 3, 4, 5, 6⟩

/-- A second concrete histogram for fold evaluations. -/
def mB : SevMap Nat := ⟨7, 0, 2, 9, 1, 3⟩

theorem mem_sevFilter_sev {f : Finding} {k : Nat} {l : List Finding}
    (h : f ∈ sevFilter k l) : get_finding_severity f = k := by
  have h2 := (List.mem_filter.mp h).2
  simpa using h2

theorem mem_sevFilter_of {f : Finding} {l : List Finding}
    (hf : f ∈ l) : f ∈ sevFilter (get_finding_severity f) l := by
  exact List.mem_filter.mpr ⟨hf, by simp⟩

theorem orderedInsert_append_of_not (a : Finding) (l1 l2 : List Finding)
    (h : ∀ b ∈ l1, ¬ sevGE a b) :
    List.orderedInsert sevGE a (l1 ++ l2) = l1 ++ List.orderedInsert sevGE a l2 := by
  induction l1 with
  | nil => rfl
  | cons x xs ih =>
    have hx : ¬ sevGE a x := h x (List.mem_cons_self x xs)
    simp [List.orderedInsert, hx, ih (fun b hb => h b (List.mem_cons_of_mem x hb))]

theorem orderedInsert_all (a : Finding) (l : List Finding)
    (h : ∀ b ∈ l, sevGE a b) :
    List.orderedInsert sevGE a l = a :: l := by
  cases l with
  | nil => rfl
  | cons x xs => simp [List.orderedInsert, h x (List.mem_cons_self x xs)]

theorem orderedInsert_buckets (f : Finding) (rest : List Finding)
    (hf : get_finding_severity f ≤ 5) :
    List.orderedInsert sevGE f (sevBuckets rest) = sevBuckets (f :: rest) := by
  have hnot : ∀ k, get_finding_severity f < k →
      ∀ b ∈ sevFilter k rest, ¬ sevGE f b := by
    intro k hk b hb
    have hbk := mem_sevFilter_sev hb
    simp only [sevGE]
    omega
  have hall : ∀ k, k ≤ get_finding_severity f →
      ∀ b ∈ sevFilter k rest, sevGE f b := by
    intro k hk b hb
    have hbk := mem_sevFilter_sev hb
    simp only [sevGE]
    omega
  have hcases : get_finding_severity f = 5 ∨ get_finding_severity f = 4 ∨
      get_finding_severity f = 3 ∨ get_finding_severity f = 2 ∨
      get_finding_severity f = 1 ∨ get_finding_severity f = 0 := by omega
  unfold sevBuckets
  simp only [List.append_assoc]
  rcases hcases with hs|hs|hs|hs|hs|hs
  · rw [orderedInsert_all f _ (by
      intro b hb
      simp only [List.mem_append] at hb
      rcases hb with hb|hb|hb|hb|hb|hb <;>
        exact hall _ (by omega) b hb)]
    simp [sevFilter, List.filter_cons, hs, List.append_assoc]
  · rw [orderedInsert_append_of_not f (sevFilter 5 rest) _ (hnot 5 (by omega)),
      orderedInsert_all f _ (by
        intro b hb
        simp only [List.mem_append] at hb
        rcases hb with hb|hb|hb|hb|hb <;>
          exact hall _ (by omega) b hb)]
    simp [sevFilter, List.filter_cons, hs, List.append_assoc]
  · rw [orderedInsert_append_of_not f (sevFilter 5 rest) _ (hnot 5 (by omega)),
      orderedInsert_append_of_not f (sevFilter 4 rest) _ (hnot 4 (by omega)),
      orderedInsert_all f _ (by
        intro b hb
        simp only [List.mem_append] at hb
        rcases hb with hb|hb|hb|hb <;>
          exact hall _ (by omega) b hb)]
    simp [sevFilter, List.filter_cons, hs, List.append_assoc]
  · rw [orderedInsert_append_of_not f (sevFilter 5 rest) _ (hnot 5 (by omega)),
      orderedInsert_append_of_not f (sevFilter 4 rest) _ (hnot 4 (by omega)),
      orderedInsert_append_of_not f (sevFilter 3 rest) _ (hnot 3 (by omega)),
      orderedInsert_all f _ (by
        intro b hb
        simp only [List.mem_append] at hb
        rcases hb with hb|hb|hb <;>
          exact hall _ (by omega) b hb)]
    simp [sevFilter, List.filter_cons, hs, List.append_assoc]
  · rw [orderedInsert_append_of_not f (sevFilter 5 rest) _ (hnot 5 (by omega)),
      orderedInsert_append_of_not f (sevFilter 4 rest) _ (hnot 4 (by omega)),
      orderedInsert_append_of_not f (sevFilter 3 rest) _ (hnot 3 (by omega)),
      orderedInsert_append_of_not f (sevFilter 2 rest) _ (hnot 2 (by omega)),
      orderedInsert_all f _ (by
        intro b hb
        simp only [List.mem_append] at hb
        rcases hb with hb|hb <;>
          exact hall _ (by omega) b hb)]
    simp [sevFilter, List.filter_cons, hs, List.append_assoc]
  · rw [orderedInsert_append_of_not f (sevFilter 5 rest) _ (hnot 5 (by omega)),
      orderedInsert_append_of_not f (sevFilter 4 rest) _ (hnot 4 (by omega)),
      orderedInsert_append_of_not f (sevFilter 3 rest) _ (hnot 3 (by omega)),
      orderedInsert_append_of_not f (sevFilter 2 rest) _ (hnot 2 (by omega)),
      orderedInsert_append_of_not f (sevFilter 1 rest) _ (hnot 1 (by omega)),
      orderedInsert_all f _ (hall 0 (by omega))]
    simp [sevFilter, List.filter_cons, hs, List.append_assoc]

theorem sortDesc_eq_buckets (l : List Finding)
    (h : ∀ f ∈ l, get_finding_severity f ≤ 5) :
    sortDescBySeverity l = sevBuckets l := by
  induction l with
  | nil => simp [sortDescBySeverity, List.insertionSort, sevBuckets, sevFilter]
  | cons f rest ih =>
    have hf := h f (List.mem_cons_self f rest)
    have hrest : ∀ g ∈ rest, get_finding_severity g ≤ 5 :=
      fun g hg => h g (List.mem_cons_of_mem f hg)
    calc sortDescBySeverity (f :: rest)
        = List.orderedInsert sevGE f (sortDescBySeverity rest) := rfl
      _ = List.orderedInsert sevGE f (sevBuckets rest) := by rw [ih hrest]
      _ = sevBuckets (f :: rest) := orderedInsert_buckets f rest hf

theorem sevFilter_append (k : Nat) (l1 l2 : List Finding) :
    sevFilter k (l1 ++ l2) = sevFilter k l1 ++ sevFilter k l2 := by
  simp [sevFilter, List.filter_append]

theorem polFilter_append (k : Nat) (l1 l2 : List Finding) :
    polFilter k (l1 ++ l2) = polFilter k l1 ++ polFilter k l2 := by
  simp [polFilter, List.filter_append]

theorem sevFilter_cons (k : Nat) (f : Finding) (rest : List Finding) :
    sevFilter k (f :: rest) =
      if get_finding_severity f = k then f :: sevFilter k rest
      else sevFilter k rest := by
  by_cases h : get_finding_severity f = k <;> simp [sevFilter, List.filter_cons, h]

theorem polFilter_cons (k : Nat) (f : Finding) (rest : List Finding) :
    polFilter k (f :: rest) =
      if f.violates_policy then
        (if get_finding_severity f = k then f :: polFilter k rest
         else polFilter k rest)
      else polFilter k rest := by
  cases hv : f.violates_policy <;> by_cases hs : get_finding_severity f = k <;>
    simp [polFilter, List.filter_cons, hv, hs]

theorem sevFilter_sevFilter (j k : Nat) (l : List Finding) :
    sevFilter j (sevFilter k l) = if j = k then sevFilter k l else [] := by
  by_cases hj : j = k
  · subst hj
    simp only [if_pos rfl]
    induction l with
    | nil => rfl
    | cons f rest ih =>
      by_cases hk : get_finding_severity f = j <;>
        simp only [sevFilter_cons, hk, if_true, if_false, ih, if_pos, if_neg,
          reduceIte]
  · simp only [if_neg hj]
    induction l with
    | nil => rfl
    | cons f rest ih =>
      by_cases hk : get_finding_severity f = k
      · have hfj : ¬ get_finding_severity f = j := by omega
        simp only [sevFilter_cons, hk, hfj, if_true, if_false, reduceIte]
        simp [hfj, ih, (show ¬ k = j by omega)]
      · simp only [sevFilter_cons, hk, if_false, reduceIte]
        simp [hk, ih]

theorem polFilter_sevFilter (j k : Nat) (l : List Finding) :
    polFilter j (sevFilter k l) = if j = k then polFilter k l else [] := by
  by_cases hj : j = k
  · subst hj
    simp only [if_pos rfl]
    induction l with
    | nil => rfl
    | cons f rest ih =>
      by_cases hk : get_finding_severity f = j <;> cases hv : f.violates_policy <;>
        simp [sevFilter_cons, polFilter_cons, hk, hv, ih]
  · simp only [if_neg hj]
    induction l with
    | nil => rfl
    | cons f rest ih =>
      by_cases hk : get_finding_severity f = k
      · have hfj : ¬ get_finding_severity f = j := by omega
        cases hv : f.violates_policy <;>
          simp [sevFilter_cons, polFilter_cons, hk, hv, hfj, ih,
            (show ¬ k = j by omega)]
      · simp [sevFilter_cons, polFilter_cons, hk, ih]

theorem sevFilter_sevBuckets (k : Nat) (hk : k ≤ 5) (l : List Finding) :
    sevFilter k (sevBuckets l) = sevFilter k l := by
  have hcases : k = 5 ∨ k = 4 ∨ k = 3 ∨ k = 2 ∨ k = 1 ∨ k = 0 := by omega
  unfold sevBuckets
  rcases hcases with h|h|h|h|h|h <;> subst h <;>
    simp [sevFilter_append, sevFilter_sevFilter]

theorem polFilter_sevBuckets (k : Nat) (hk : k ≤ 5) (l : List Finding) :
    polFilter k (sevBuckets l) = polFilter k l := by
  have hcases : k = 5 ∨ k = 4 ∨ k = 3 ∨ k = 2 ∨ k = 1 ∨ k = 0 := by omega
  unfold sevBuckets
  rcases hcases with h|h|h|h|h|h <;> subst h <;>
    simp [polFilter_append, polFilter_sevFilter]

theorem sevBuckets_length (l : List Finding)
    (h : ∀ f ∈ l, get_finding_severity f ≤ 5) :
    (sevFilter 5 l).length + (sevFilter 4 l).length + (sevFilter 3 l).length +
      (sevFilter 2 l).length + (sevFilter 1 l).length + (sevFilter 0 l).length =
      l.length := by
  have h1 : (sevBuckets l).length = l.length := by
    rw [← sortDesc_eq_buckets l h]
    exact (List.perm_insertionSort sevGE l).length_eq
  simp only [sevBuckets, List.length_append] at h1
  omega

theorem fillBuckets_spec (l : List Finding) (a p : SevMap (List Finding))
    (h : ∀ f ∈ l, get_finding_severity f ≤ 5) :
    fillBuckets l a p =
      some (⟨a.sev5 ++ sevFilter 5 l, a.sev4 ++ sevFilter 4 l,
             a.sev3 ++ sevFilter 3 l, a.sev2 ++ sevFilter 2 l,
             a.sev1 ++ sevFilter 1 l, a.sev0 ++ sevFilter 0 l⟩,
            ⟨p.sev5 ++ polFilter 5 l, p.sev4 ++ polFilter 4 l,
             p.sev3 ++ polFilter 3 l, p.sev2 ++ polFilter 2 l,
             p.sev1 ++ polFilter 1 l, p.sev0 ++ polFilter 0 l⟩) := by
  induction l generalizing a p with
  | nil => simp [fillBuckets, sevFilter, polFilter]
  | cons f rest ih =>
    have hf := h f (List.mem_cons_self f rest)
    have hrest : ∀ g ∈ rest, get_finding_severity g ≤ 5 :=
      fun g hg => h g (List.mem_cons_of_mem f hg)
    have hcases : get_finding_severity f = 5 ∨ get_finding_severity f = 4 ∨
        get_finding_severity f = 3 ∨ get_finding_severity f = 2 ∨
        get_finding_severity f = 1 ∨ get_finding_severity f = 0 := by omega
    rcases hcases with hs|hs|hs|hs|hs|hs <;> cases hv : f.violates_policy <;>
      simp [fillBuckets, bucketAppend, hs, hv, ih _ _ hrest, sevFilter, polFilter,
        List.filter_cons, List.append_assoc]

theorem bucketAppend_eq_none (m : SevMap (List Finding)) (f : Finding)
    (h : 5 < get_finding_severity f) : bucketAppend m f = none := by
  unfold bucketAppend
  split_ifs <;> first | rfl | (exfalso; omega)

theorem fillBuckets_none (l : List Finding) (a p : SevMap (List Finding))
    (h : ∃ f ∈ l, 5 < get_finding_severity f) :
    fillBuckets l a p = none := by
  induction l generalizing a p with
  | nil =>
    rcases h with ⟨f, hf, _⟩
    cases hf
  | cons g rest ih =>
    rcases h with ⟨f, hf, hbad⟩
    rcases List.mem_cons.mp hf with rfl | hfr
    · simp [fillBuckets, bucketAppend_eq_none a f hbad]
    · cases hba : bucketAppend a g with
      | none => simp [fillBuckets, hba]
      | some a' =>
        have hg5 : get_finding_severity g ≤ 5 := by
          by_contra hc
          rw [bucketAppend_eq_none a g (by omega)] at hba
          cases hba
        cases hv : g.violates_policy with
        | false => simp [fillBuckets, hba, hv, ih _ _ ⟨f, hfr, hbad⟩]
        | true =>
          cases hbp : bucketAppend p g with
          | none => simp [fillBuckets, hba, hv, hbp]
          | some p' => simp [fillBuckets, hba, hv, hbp, ih _ _ ⟨f, hfr, hbad⟩]

theorem fillBuckets_isSome_bound (l : List Finding) (a p : SevMap (List Finding))
    (x : SevMap (List Finding) × SevMap (List Finding))
    (h : fillBuckets l a p = some x) : ∀ f ∈ l, get_finding_severity f ≤ 5 := by
  intro f hf
  by_contra hc
  rw [fillBuckets_none l a p ⟨f, hf, by omega⟩] at h
  cases h

theorem get_app_spec (l : List Finding)
    (h : ∀ f ∈ l, get_finding_severity f ≤ 5) :
    get_app_profile_summary_data l =
      some { findings_by_severity :=
               ⟨(sevFilter 5 l).length, (sevFilter 4 l).length,
                (sevFilter 3 l).length, (sevFilter 2 l).length,
                (sevFilter 1 l).length, (sevFilter 0 l).length⟩
           , policy_findings_by_severity :=
               ⟨(polFilter 5 l).length, (polFilter 4 l).length,
                (polFilter 3 l).length, (polFilter 2 l).length,
                (polFilter 1 l).length, (polFilter 0 l).length⟩
           , total_findings := l.length
           , total_policy_findings :=
               (polFilter 5 l).length + (polFilter 4 l).length +
               (polFilter 3 l).length + (polFilter 2 l).length +
               (polFilter 1 l).length + (polFilter 0 l).length
           , app_findings := sevBuckets l } := by
  have hsort := sortDesc_eq_buckets l h
  have hmem : ∀ f ∈ sevBuckets l, get_finding_severity f ≤ 5 := by
    intro f hf
    have hf2 : f ∈ sortDescBySeverity l := by rw [hsort]; exact hf
    exact h f ((List.perm_insertionSort sevGE l).mem_iff.mp hf2)
  have hlen : (sevBuckets l).length = l.length := by
    rw [← hsort]
    exact (List.perm_insertionSort sevGE l).length_eq
  unfold get_app_profile_summary_data
  rw [hsort, fillBuckets_spec _ _ _ hmem]
  simp only [emptyBuckets, List.nil_append, bucketLens, sevMapSum]
  rw [sevFilter_sevBuckets 5 (by omega), sevFilter_sevBuckets 4 (by omega),
    sevFilter_sevBuckets 3 (by omega), sevFilter_sevBuckets 2 (by omega),
    sevFilter_sevBuckets 1 (by omega), sevFilter_sevBuckets 0 (by omega),
    polFilter_sevBuckets 5 (by omega), polFilter_sevBuckets 4 (by omega),
    polFilter_sevBuckets 3 (by omega), polFilter_sevBuckets 2 (by omega),
    polFilter_sevBuckets 1 (by omega), polFilter_sevBuckets 0 (by omega), hlen]

theorem polFilter_length_le (k : Nat) (l : List Finding) :
    (polFilter k l).length ≤ (sevFilter k l).length := by
  induction l with
  | nil => simp [polFilter, sevFilter]
  | cons f rest ih =>
    by_cases hs : get_finding_severity f = k <;> cases hv : f.violates_policy <;>
      simp [sevFilter_cons, polFilter_cons, hs, hv] <;> omega

theorem get_app_wf (l : List Finding) (s : AppSummary)
    (h : get_app_profile_summary_data l = some s) :
    (∀ f ∈ s.app_findings, get_finding_severity f ≤ 5) ∧
      s.total_findings = s.app_findings.length := by
  have hb : ∀ f ∈ sortDescBySeverity l, get_finding_severity f ≤ 5 := by
    intro f hf
    unfold get_app_profile_summary_data at h
    cases hfb : fillBuckets (sortDescBySeverity l) emptyBuckets emptyBuckets with
    | none => rw [hfb] at h; cases h
    | some x => exact fillBuckets_isSome_bound _ _ _ _ hfb f hf
  have hl : ∀ f ∈ l, get_finding_severity f ≤ 5 := by
    intro f hf
    exact hb f (((List.perm_insertionSort sevGE l).mem_iff).mpr hf)
  have hsort := sortDesc_eq_buckets l hl
  rw [get_app_spec l hl] at h
  cases h
  refine ⟨?_, ?_⟩
  · intro f hf
    rw [← hsort] at hf
    exact hb f hf
  · show l.length = (sevBuckets l).length
    rw [← hsort]
    exact ((List.perm_insertionSort sevGE l).length_eq).symm

theorem foldl_update_perm (l1 l2 : List (SevMap Nat)) (h : l1.Perm l2) :
    ∀ init : SevMap Nat,
      l1.foldl update_collection_findings_by_sev init =
        l2.foldl update_collection_findings_by_sev init := by
  induction h with
  | nil => intro init; rfl
  | cons x hh ih => intro init; simp only [List.foldl_cons]; exact ih _
  | swap x y l =>
    intro init
    simp only [List.foldl_cons]
    have hc : update_collection_findings_by_sev
        (update_collection_findings_by_sev init y) x =
        update_collection_findings_by_sev
        (update_collection_findings_by_sev init x) y := by
      simp [update_collection_findings_by_sev]
      omega
    rw [hc]
  | trans h1 h2 ih1 ih2 => intro init; exact (ih1 _).trans (ih2 _)

theorem severityLabel_some_of_le (n : Nat) (h : n ≤ 5) :
    ∃ lbl, severityLabel n = some lbl := by
  unfold severityLabel
  split_ifs <;> first | exact ⟨_, rfl⟩ | (exfalso; omega)

theorem csv_finding_row_some (name : String) (f : Finding)
    (h : get_finding_severity f ≤ 5) : ∃ r, csv_finding_row name f = some r := by
  obtain ⟨lbl, hlbl⟩ := severityLabel_some_of_le _ h
  exact ⟨_, by unfold csv_finding_row; rw [hlbl]⟩

theorem csv_rows_len (name : String) (l : List Finding)
    (h : ∀ f ∈ l, get_finding_severity f ≤ 5) :
    ∃ rows, csv_rows_for_findings name l = some rows ∧
      rows.length = l.length := by
  induction l with
  | nil => exact ⟨[], rfl, rfl⟩
  | cons f rest ih =>
    obtain ⟨r, hr⟩ := csv_finding_row_some name f (h f (List.mem_cons_self f rest))
    obtain ⟨rows, hrows, hlen⟩ := ih (fun g hg => h g (List.mem_cons_of_mem f hg))
    refine ⟨r :: rows, ?_, by simp [hlen]⟩
    simp [csv_rows_for_findings, hr, hrows]

theorem write_csv_data_rows_len (an : String → String)
    (fl : List (String × AppSummary)) (h : ∀ q ∈ fl, entryWF q) :
    ∃ rows, write_csv_data_rows an fl = some rows ∧
      rows.length = (fl.map (fun q => q.2.app_findings.length)).sum := by
  induction fl with
  | nil => exact ⟨[], rfl, rfl⟩
  | cons q rest ih =>
    obtain ⟨app, s⟩ := q
    obtain ⟨hkey, hsev, htot⟩ := h (app, s) (List.mem_cons_self _ _)
    obtain ⟨rows1, hrows1, hlen1⟩ := csv_rows_len (an app) s.app_findings hsev
    obtain ⟨rows2, hrows2, hlen2⟩ := ih (fun q hq => h q (List.mem_cons_of_mem _ hq))
    refine ⟨rows1 ++ rows2, ?_, by simp [hlen1, hlen2]⟩
    simp [write_csv_data_rows, hkey, hrows1, hrows2]

theorem get_findings_aux_wf (apps : List (String × List Finding)) :
    ∀ (acc : List (String × AppSummary)) (cs cps : SevMap Nat)
      (fl : List (String × AppSummary)) (cs2 cps2 : SevMap Nat),
      get_findings_aux apps acc cs cps = some (fl, cs2, cps2) →
      (∀ q ∈ acc, entryWF q) →
      (∀ p ∈ apps, p.1 ≠ "collection_summary") →
      ∀ q ∈ fl, entryWF q := by
  induction apps with
  | nil =>
    intro acc cs cps fl cs2 cps2 h hacc hk q hq
    cases h
    exact hacc q hq
  | cons ap rest ih =>
    intro acc cs cps fl cs2 cps2 h hacc hk q hq
    obtain ⟨app, fs⟩ := ap
    cases hs : get_app_profile_summary_data fs with
    | none => simp [get_findings_aux, hs] at h
    | some s =>
      simp only [get_findings_aux, hs] at h
      refine ih _ _ _ _ _ _ h ?_ (fun p hp => hk p (List.mem_cons_of_mem _ hp)) q hq
      intro q2 hq2
      rcases List.mem_append.mp hq2 with hq2 | hq2
      · exact hacc q2 hq2
      · rcases List.mem_singleton.mp hq2 with rfl
        obtain ⟨hsev, htot⟩ := get_app_wf fs s hs
        exact ⟨hk (app, fs) (List.mem_cons_self _ _), hsev, htot⟩

theorem sum_map_congr {α : Type} (l : List α) (f g : α → Nat)
    (h : ∀ a ∈ l, f a = g a) : (l.map f).sum = (l.map g).sum := by
  induction l with
  | nil => rfl
  | cons x xs ih =>
    simp [List.map_cons, List.sum_cons, h x (List.mem_cons_self x xs),
      ih (fun a ha => h a (List.mem_cons_of_mem x ha))]

theorem data_row_for_unknown (f : Finding) (h : f.scan_type ∉ knownScanTypes) :
    data_row_for f = some [] := by
  simp only [knownScanTypes, List.mem_cons, List.not_mem_nil, or_false,
    not_or] at h
  obtain ⟨h1, h2, h3, h4⟩ := h
  simp [data_row_for, h1, h2, h3, h4]

theorem ensureKey_inv (arr : List (String × List (List String)))
    (st st2 : String) (hinv : ∀ p ∈ arr, p.1 = st → p.2 = []) :
    ∀ p ∈ ensureKey arr st2, p.1 = st → p.2 = [] := by
  intro p hp hpst
  unfold ensureKey at hp
  by_cases hany : arr.any (fun p => p.1 = st2)
  · rw [if_pos hany] at hp
    exact hinv p hp hpst
  · rw [if_neg hany] at hp
    rcases List.mem_append.mp hp with hp | hp
    · exact hinv p hp hpst
    · rcases List.mem_singleton.mp hp with rfl
      rfl

theorem appendRow_inv (arr : List (String × List (List String)))
    (st st2 : String) (row : List String) (hne : st2 ≠ st)
    (hinv : ∀ p ∈ arr, p.1 = st → p.2 = []) :
    ∀ p ∈ appendRow arr st2 row, p.1 = st → p.2 = [] := by
  intro p hp hpst
  unfold appendRow at hp
  obtain ⟨q, hq, hpq⟩ := List.mem_map.mp hp
  by_cases hq1 : q.1 = st2
  · rw [if_pos hq1] at hpq
    subst hpq
    exact absurd (hq1 ▸ hpst : st2 = st) hne
  · rw [if_neg hq1] at hpq
    subst hpq
    exact hinv q hq hpst

theorem collectRowsAux_unknown_empty (st : String) (hst : st ∉ knownScanTypes)
    (l : List Finding) :
    ∀ (arr : List (String × List (List String))),
      (∀ p ∈ arr, p.1 = st → p.2 = []) →
      ∀ arr2, collectRowsAux arr l = some arr2 →
        ∀ p ∈ arr2, p.1 = st → p.2 = [] := by
  induction l with
  | nil =>
    intro arr hinv arr2 h
    cases h
    exact hinv
  | cons f rest ih =>
    intro arr hinv arr2 h
    cases hdr : data_row_for f with
    | none => simp [collectRowsAux, hdr] at h
    | some row =>
      simp only [collectRowsAux, hdr] at h
      by_cases hlen : 0 < row.length
      · have hfst : f.scan_type ≠ st := by
          intro he
          have : data_row_for f = some [] := data_row_for_unknown f (he ▸ hst)
          rw [hdr] at this
          cases this
          simp at hlen
        rw [if_pos hlen] at h
        exact ih _ (appendRow_inv _ st f.scan_type row hfst
          (ensureKey_inv arr st f.scan_type hinv)) arr2 h
      · rw [if_neg hlen] at h
        exact ih _ (ensureKey_inv arr st f.scan_type hinv) arr2 h

/-- C1: for findings whose severities all lie in 0-5,
`get_app_profile_summary_data` returns the summary whose `findings_by_severity`
tier counts are the numbers of findings per severity, whose
`policy_findings_by_severity` tier counts are the numbers of policy-violating
findings per severity, whose `total_findings` is the input length, whose
`total_policy_findings` is the sum of the policy histogram, and whose
`app_findings` is the input stably sorted by severity descending (the
concatenation of the severity tiers, highest first, each tier in original
order). -/
theorem C1_app_profile_summary_correct (l : List Finding)
    (h : ∀ f ∈ l, get_finding_severity f ≤ 5) :
    get_app_profile_summary_data l =
      some { findings_by_severity :=
               ⟨(sevFilter 5 l).length, (sevFilter 4 l).length,
                (sevFilter 3 l).length, (sevFilter 2 l).length,
                (sevFilter 1 l).length, (sevFilter 0 l).length⟩
           , policy_findings_by_severity :=
               ⟨(polFilter 5 l).length, (polFilter 4 l).length,
                (polFilter 3 l).length, (polFilter 2 l).length,
                (polFilter 1 l).length, (polFilter 0 l).length⟩
           , total_findings := l.length
           , total_policy_findings :=
               (polFilter 5 l).length + (polFilter 4 l).length +
               (polFilter 3 l).length + (polFilter 2 l).length +
               (polFilter 1 l).length + (polFilter 0 l).length
           , app_findings := sevBuckets l } :=
  get_app_spec l h

/-- Witness for C1 at the spec's ten-finding scenario: severities
[5,5,4,3,3,3,2,1,0,0] with violations at severities [5,3,3,2] give the
histograms {5:2,4:1,3:3,2:1,1:1,0:2} and {5:1,4:0,3:2,2:1,1:0,0:0}, ten total
findings and four policy findings. -/
theorem C1_witness :
    (∀ f ∈ ex10, get_finding_severity f ≤ 5) ∧
      get_app_profile_summary_data ex10 =
        some { findings_by_severity := ⟨2, 1, 3, 1, 1, 2⟩
             , policy_findings_by_severity := ⟨1, 0, 2, 1, 0, 0⟩
             , total_findings := 10
             , total_policy_findings := 4
             , app_findings := sevBuckets ex10 } :=
  ⟨by decide, (C1_app_profile_summary_correct ex10 (by decide)).trans (by decide)⟩

/-- C2: the `display_icon` chain of `profile_summary_section` classifies every
asset exactly as the spec's five priority rules do (null scan date wins, then
failed scan requirements, then passed rules, then grace period, then fail),
each asset receiving exactly one of the four states' icons. -/
theorem C2_classifier_priority_order (a : AssetAttributes) :
    profile_summary_display_icon a = stateIcon (classify_asset_spec a) := by
  rcases a with ⟨r, s, g, d⟩
  cases d <;> cases r <;> cases s <;> cases g <;> rfl

/-- C3: on severities in range, the summary's all-findings histogram sums to
`total_findings`, the policy histogram sums to `total_policy_findings`, and
each policy tier count is bounded by the corresponding all-findings tier
count. -/
theorem C3_histogram_invariants (l : List Finding)
    (h : ∀ f ∈ l, get_finding_severity f ≤ 5) :
    ∃ s, get_app_profile_summary_data l = some s ∧
      sevMapSum s.findings_by_severity = s.total_findings ∧
      sevMapSum s.policy_findings_by_severity = s.total_policy_findings ∧
      s.policy_findings_by_severity.sev5 ≤ s.findings_by_severity.sev5 ∧
      s.policy_findings_by_severity.sev4 ≤ s.findings_by_severity.sev4 ∧
      s.policy_findings_by_severity.sev3 ≤ s.findings_by_severity.sev3 ∧
      s.policy_findings_by_severity.sev2 ≤ s.findings_by_severity.sev2 ∧
      s.policy_findings_by_severity.sev1 ≤ s.findings_by_severity.sev1 ∧
      s.policy_findings_by_severity.sev0 ≤ s.findings_by_severity.sev0 := by
  refine ⟨_, get_app_spec l h, ?_, rfl, polFilter_length_le 5 l,
    polFilter_length_le 4 l, polFilter_length_le 3 l, polFilter_length_le 2 l,
    polFilter_length_le 1 l, polFilter_length_le 0 l⟩
  exact sevBuckets_length l h

/-- Witness for C3 at the ten-finding scenario. -/
theorem C3_witness :
    (∀ f ∈ ex10, get_finding_severity f ≤ 5) ∧
      ∃ s, get_app_profile_summary_data ex10 = some s ∧
        sevMapSum s.findings_by_severity = s.total_findings ∧
        sevMapSum s.policy_findings_by_severity = s.total_policy_findings ∧
        s.policy_findings_by_severity.sev5 ≤ s.findings_by_severity.sev5 ∧
        s.policy_findings_by_severity.sev4 ≤ s.findings_by_severity.sev4 ∧
        s.policy_findings_by_severity.sev3 ≤ s.findings_by_severity.sev3 ∧
        s.policy_findings_by_severity.sev2 ≤ s.findings_by_severity.sev2 ∧
        s.policy_findings_by_severity.sev1 ≤ s.findings_by_severity.sev1 ∧
        s.policy_findings_by_severity.sev0 ≤ s.findings_by_severity.sev0 :=
  ⟨by decide, C3_histogram_invariants ex10 (by decide)⟩

/-- Counterexample for C4: on a finding with severity 6 the aggregation does
not return normally with a catch-all bucket; the dictionary lookup
`allfindingsbysev['sev6']` raises `KeyError`, modelled as `none`. -/
theorem C4_counterexample :
    get_app_profile_summary_data [exBad6] = none := by decide

/-- C4 (amended): an input containing a finding whose severity lies outside
0-5 makes `get_app_profile_summary_data` raise (return `none`) instead of
recording the finding under a catch-all bucket. -/
theorem C4_out_of_range_severity_raises (l : List Finding)
    (h : ∃ f ∈ l, 5 < get_finding_severity f) :
    get_app_profile_summary_data l = none := by
  obtain ⟨f, hf, h5⟩ := h
  unfold get_app_profile_summary_data
  rw [fillBuckets_none (sortDescBySeverity l) emptyBuckets emptyBuckets
    ⟨f, (List.perm_insertionSort sevGE l).mem_iff.mpr hf, h5⟩]

/-- Witness for the amended C4 at the severity-6 finding. -/
theorem C4_witness :
    (∃ f ∈ [exBad6], 5 < get_finding_severity f) ∧
      get_app_profile_summary_data [exBad6] = none :=
  ⟨⟨exBad6, by decide, by decide⟩,
   C4_out_of_range_severity_raises [exBad6] ⟨exBad6, by decide, by decide⟩⟩

/-- Counterexample for C5: a static finding with no `cwe` entry makes
`static_findings_data_row` raise (`f['finding_details']['cwe']['id']` is a
direct subscript), instead of substituting empty strings. -/
theorem C5_counterexample :
    static_findings_data_row exNoCwe = none := by decide

/-- C5 (amended): for a finding with an in-range severity, the row builders
tolerate the absence of `issue_id`, file path, line number, URL path,
vulnerable parameter, component name/version, input vector — and, in the SCA
row only, of the CWE id/name — substituting an empty string for each; but the
static, dynamic and manual builders fail on a missing CWE object, the SCA
builder fails on a missing CVE object, and the manual builder fails on a
missing description. -/
theorem C5_row_builders_optional_fields (f : Finding)
    (h5 : get_finding_severity f ≤ 5) :
    ((static_findings_data_row f).isSome ↔ f.finding_details.cwe.isSome) ∧
    ((dyanmic_findings_data_row f).isSome ↔ f.finding_details.cwe.isSome) ∧
    ((sca_findings_data_row f).isSome ↔ f.finding_details.cve.isSome) ∧
    ((manual_findings_data_row f).isSome ↔
      (f.finding_details.cwe.isSome ∧ f.description.isSome)) ∧
    (∀ c, f.finding_details.cwe = some c →
      static_findings_data_row f =
        some [optCell f.issue_id,
              (severityLabel (get_finding_severity f)).getD "",
              toString c.id, c.name, f.finding_details.file_path.getD "",
              optCell f.finding_details.file_line_number,
              pyCapitalize f.finding_status.status,
              pyCapitalize f.finding_status.resolution] ∧
      dyanmic_findings_data_row f =
        some [optCell f.issue_id,
              (severityLabel (get_finding_severity f)).getD "",
              toString c.id, c.name, f.finding_details.path.getD "",
              f.finding_details.vulnerable_parameter.getD "",
              pyCapitalize f.finding_status.status,
              pyCapitalize f.finding_status.resolution]) ∧
    (∀ cv, f.finding_details.cve = some cv →
      sca_findings_data_row f =
        some [(f.finding_details.cwe.map (fun c => toString c.id)).getD "",
              (f.finding_details.cwe.map (fun c => c.name)).getD "",
              cv.name, toString cv.cvss,
              (severityLabel (get_finding_severity f)).getD "",
              f.finding_details.component_filename.getD "",
              f.finding_details.version.getD "",
              pyCapitalize f.finding_status.status,
              pyCapitalize f.finding_status.resolution]) ∧
    (∀ c d, f.finding_details.cwe = some c → f.description = some d →
      manual_findings_data_row f =
        some [optCell f.issue_id,
              (severityLabel (get_finding_severity f)).getD "",
              toString c.id, c.name, f.finding_details.input_vector.getD "", d,
              pyCapitalize f.finding_status.status,
              pyCapitalize f.finding_status.resolution]) := by
  obtain ⟨lbl, hlbl⟩ := severityLabel_some_of_le _ h5
  refine ⟨?_, ?_, ?_, ?_, ?_, ?_, ?_⟩
  · cases hc : f.finding_details.cwe <;>
      simp [static_findings_data_row, hlbl, hc]
  · cases hc : f.finding_details.cwe <;>
      simp [dyanmic_findings_data_row, hlbl, hc]
  · cases hc : f.finding_details.cve <;>
      simp [sca_findings_data_row, hlbl, hc]
  · cases hc : f.finding_details.cwe <;> cases hd : f.description <;>
      simp [manual_findings_data_row, hlbl, hc, hd]
  · intro c hc
    exact ⟨by simp [static_findings_data_row, hlbl, hc],
           by simp [dyanmic_findings_data_row, hlbl, hc]⟩
  · intro cv hcv
    cases hc2 : f.finding_details.cwe <;>
      simp [sca_findings_data_row, hlbl, hcv, hc2]
  · intro c d hc hd
    simp [manual_findings_data_row, hlbl, hc, hd]

/-- Witness for the amended C5 at a finding with every optional field absent
and the required CWE, CVE and description present. -/
theorem C5_witness :
    (get_finding_severity exAllOpt ≤ 5) ∧
    (((static_findings_data_row exAllOpt).isSome ↔
        exAllOpt.finding_details.cwe.isSome) ∧
     ((dyanmic_findings_data_row exAllOpt).isSome ↔
        exAllOpt.finding_details.cwe.isSome) ∧
     ((sca_findings_data_row exAllOpt).isSome ↔
        exAllOpt.finding_details.cve.isSome) ∧
     ((manual_findings_data_row exAllOpt).isSome ↔
        (exAllOpt.finding_details.cwe.isSome ∧ exAllOpt.description.isSome)) ∧
     (∀ c, exAllOpt.finding_details.cwe = some c →
       static_findings_data_row exAllOpt =
         some [optCell exAllOpt.issue_id,
               (severityLabel (get_finding_severity exAllOpt)).getD "",
               toString c.id, c.name, exAllOpt.finding_details.file_path.getD "",
               optCell exAllOpt.finding_details.file_line_number,
               pyCapitalize exAllOpt.finding_status.status,
               pyCapitalize exAllOpt.finding_status.resolution] ∧
       dyanmic_findings_data_row exAllOpt =
         some [optCell exAllOpt.issue_id,
               (severityLabel (get_finding_severity exAllOpt)).getD "",
               toString c.id, c.name, exAllOpt.finding_details.path.getD "",
               exAllOpt.finding_details.vulnerable_parameter.getD "",
               pyCapitalize exAllOpt.finding_status.status,
               pyCapitalize exAllOpt.finding_status.resolution]) ∧
     (∀ cv, exAllOpt.finding_details.cve = some cv →
       sca_findings_data_row exAllOpt =
         some [(exAllOpt.finding_details.cwe.map (fun c => toString c.id)).getD "",
               (exAllOpt.finding_details.cwe.map (fun c => c.name)).getD "",
               cv.name, toString cv.cvss,
               (severityLabel (get_finding_severity exAllOpt)).getD "",
               exAllOpt.finding_details.component_filename.getD "",
               exAllOpt.finding_details.version.getD "",
               pyCapitalize exAllOpt.finding_status.status,
               pyCapitalize exAllOpt.finding_status.resolution]) ∧
     (∀ c d, exAllOpt.finding_details.cwe = some c → exAllOpt.description = some d →
       manual_findings_data_row exAllOpt =
         some [optCell exAllOpt.issue_id,
               (severityLabel (get_finding_severity exAllOpt)).getD "",
               toString c.id, c.name,
               exAllOpt.finding_details.input_vector.getD "", d,
               pyCapitalize exAllOpt.finding_status.status,
               pyCapitalize exAllOpt.finding_status.resolution])) :=
  ⟨by decide, C5_row_builders_optional_fields exAllOpt (by decide)⟩

/-- C6: folding application histograms into the collection histogram with
`update_collection_findings_by_sev`, starting from the empty (all-zero)
histogram, gives tier-wise identical results for any permutation of the
application order; this covers both `collection_summary` and
`collection_policy_summary`. -/
theorem C6_fold_order_independent (l1 l2 : List (SevMap Nat))
    (h : l1.Perm l2) :
    l1.foldl update_collection_findings_by_sev sevMapZero =
      l2.foldl update_collection_findings_by_sev sevMapZero :=
  foldl_update_perm l1 l2 h sevMapZero

/-- Witness for C6 on two concrete histograms folded in both orders. -/
theorem C6_witness :
    ([mA, mB].Perm [mB, mA]) ∧
      [mA, mB].foldl update_collection_findings_by_sev sevMapZero =
        [mB, mA].foldl update_collection_findings_by_sev sevMapZero :=
  ⟨List.Perm.swap mB mA [], C6_fold_order_independent _ _ (List.Perm.swap mB mA [])⟩

/-- C7: for a `findings_list` produced by `get_findings` (no application guid
colliding with the reserved `collection_summary` key), the tabular export
writes exactly one data row per finding: its data-row count equals the sum of
`total_findings` over the per-application summaries, which equals the number
of finding records in the `app_findings` lists of the structured JSON dump. -/
theorem C7_cross_format_consistency (apps : List (String × List Finding))
    (assetName : String → String) (fl : List (String × AppSummary))
    (cs cps : SevMap Nat)
    (hk : ∀ p ∈ apps, p.1 ≠ "collection_summary")
    (h : get_findings apps = some (fl, cs, cps)) :
    ∃ rows, write_csv_data_rows assetName fl = some rows ∧
      rows.length = (fl.map (fun q => q.2.total_findings)).sum ∧
      rows.length = json_dump_finding_count fl := by
  have hwf : ∀ q ∈ fl, entryWF q :=
    get_findings_aux_wf apps [] sevMapZero sevMapZero fl cs cps h
      (by intro q hq; cases hq) hk
  obtain ⟨rows, hrows, hlen⟩ := write_csv_data_rows_len assetName fl hwf
  refine ⟨rows, hrows, ?_, hlen⟩
  rw [hlen]
  exact sum_map_congr fl _ _ (fun q hq => ((hwf q hq).2.2).symm)

/-- Witness for C7 on a one-application collection. -/
theorem C7_witness :
    (∀ p ∈ apps0, p.1 ≠ "collection_summary") ∧
      get_findings apps0 =
        some ([("appA", summary0)], ⟨0, 0, 1, 0, 0, 0⟩, ⟨0, 0, 1, 0, 0, 0⟩) ∧
      ∃ rows, write_csv_data_rows (fun g => g) [("appA", summary0)] = some rows ∧
        rows.length = ([("appA", summary0)].map (fun q => q.2.total_findings)).sum ∧
        rows.length = json_dump_finding_count [("appA", summary0)] :=
  ⟨by decide, by decide,
   C7_cross_format_consistency apps0 (fun g => g) [("appA", summary0)]
     ⟨0, 0, 1, 0, 0, 0⟩ ⟨0, 0, 1, 0, 0, 0⟩ (by decide) (by decide)⟩

/-- C8: a finding with an unknown scan type does not raise in
`profile_details_section`: its data row is the empty list, the collected row
list for its scan type stays empty (so it is excluded from every rendered
detailed-findings table), and it is still counted in `total_findings` and in
its severity tier of the histogram. -/
theorem C8_unknown_scan_type_recovered (f : Finding) (l : List Finding)
    (hunk : f.scan_type ∉ knownScanTypes) (hmem : f ∈ l)
    (h5 : ∀ g ∈ l, get_finding_severity g ≤ 5) :
    data_row_for f = some [] ∧
    (∀ arr, collectRows l = some arr →
      ∀ p ∈ arr, p.1 = f.scan_type → p.2 = []) ∧
    ∃ s, get_app_profile_summary_data l = some s ∧
      s.total_findings = l.length ∧
      1 ≤ sevMapGet s.findings_by_severity (get_finding_severity f) := by
  refine ⟨data_row_for_unknown f hunk, ?_, ?_⟩
  · intro arr harr
    exact collectRowsAux_unknown_empty f.scan_type hunk l []
      (by intro p hp; cases hp) arr harr
  · refine ⟨_, get_app_spec l h5, rfl, ?_⟩
    have hf5 := h5 f hmem
    have hfm := mem_sevFilter_of hmem
    have hcases : get_finding_severity f = 5 ∨ get_finding_severity f = 4 ∨
        get_finding_severity f = 3 ∨ get_finding_severity f = 2 ∨
        get_finding_severity f = 1 ∨ get_finding_severity f = 0 := by omega
    rcases hcases with hs|hs|hs|hs|hs|hs <;>
      (rw [hs] at hfm ⊢; simp only [sevMapGet, reduceIte];
       exact List.length_pos_of_mem hfm)

/-- Witness for C8: a two-finding application whose second finding has scan
type UNKNOWN. -/
theorem C8_witness :
    (funk.scan_type ∉ knownScanTypes) ∧ funk ∈ [fstat3, funk] ∧
    (∀ g ∈ [fstat3, funk], get_finding_severity g ≤ 5) ∧
    (data_row_for funk = some [] ∧
     (∀ arr, collectRows [fstat3, funk] = some arr →
        ∀ p ∈ arr, p.1 = funk.scan_type → p.2 = []) ∧
     ∃ s, get_app_profile_summary_data [fstat3, funk] = some s ∧
       s.total_findings = [fstat3, funk].length ∧
       1 ≤ sevMapGet s.findings_by_severity (get_finding_severity funk)) :=
  ⟨by decide, by decide, by decide,
   C8_unknown_scan_type_recovered funk [fstat3, funk]
     (by decide) (by decide) (by decide)⟩

/-- Counterexample for C9: the rendered status cell of a static finding with
status `FALSE POSITIVE` is `False positive` (Python `str.capitalize`), which
differs from the title-cased `False Positive` the claim asserts. -/
theorem C9_counterexample :
    static_findings_data_row exFP =
      some ["7", "Very High", "79", "Cross-site Scripting", "", "",
            "False positive", "Potential false positive"] ∧
    specTitleCase "FALSE POSITIVE" = "False Positive" ∧
    ("False positive" : String) ≠ "False Positive" :=
  ⟨by decide, by decide, by decide⟩

/-- C9 (amended): the status and resolution strings of document rows and CSV
rows are rendered with Python `str.capitalize` — first character upper-cased
and the remainder lower-cased — not in full title case. -/
theorem C9_status_resolution_use_capitalize (f : Finding) (name : String)
    (h5 : get_finding_severity f ≤ 5) (hc : f.finding_details.cwe.isSome) :
    (∃ r, static_findings_data_row f = some r ∧
       r[6]? = some (pyCapitalize f.finding_status.status) ∧
       r[7]? = some (pyCapitalize f.finding_status.resolution)) ∧
    (∃ r, csv_finding_row name f = some r ∧
       r[16]? = some (pyCapitalize f.finding_status.status) ∧
       r[17]? = some (pyCapitalize f.finding_status.resolution)) := by
  obtain ⟨lbl, hlbl⟩ := severityLabel_some_of_le _ h5
  obtain ⟨c, hcc⟩ := Option.isSome_iff_exists.mp hc
  constructor
  · refine ⟨[optCell f.issue_id, lbl, toString c.id, c.name,
      f.finding_details.file_path.getD "",
      optCell f.finding_details.file_line_number,
      pyCapitalize f.finding_status.status,
      pyCapitalize f.finding_status.resolution], ?_, rfl, rfl⟩
    simp [static_findings_data_row, hlbl, hcc]
  · refine ⟨[name, optCell f.issue_id, pyCapitalize f.scan_type, lbl,
      (match f.finding_details.cwe with | some c => toString c.id | none => ""),
      (match f.finding_details.cwe with | some c => c.name | none => ""),
      f.finding_details.file_path.getD "",
      optCell f.finding_details.file_line_number,
      f.finding_details.path.getD "",
      f.finding_details.vulnerable_parameter.getD "",
      (match f.finding_details.cve with | some cv => optCell cv.id | none => ""),
      (match f.finding_details.cve with | some cv => cv.name | none => ""),
      f.finding_details.component_filename.getD "",
      f.finding_details.version.getD "",
      f.finding_details.input_vector.getD "",
      f.description.getD "",
      pyCapitalize f.finding_status.status,
      pyCapitalize f.finding_status.resolution], ?_, rfl, rfl⟩
    unfold csv_finding_row
    rw [hlbl]

/-- Witness for the amended C9 at the multi-word-status finding. -/
theorem C9_witness :
    (get_finding_severity exFP ≤ 5) ∧ exFP.finding_details.cwe.isSome ∧
    ((∃ r, static_findings_data_row exFP = some r ∧
        r[6]? = some (pyCapitalize exFP.finding_status.status) ∧
        r[7]? = some (pyCapitalize exFP.finding_status.resolution)) ∧
     (∃ r, csv_finding_row "Asset A" exFP = some r ∧
        r[16]? = some (pyCapitalize exFP.finding_status.status) ∧
        r[17]? = some (pyCapitalize exFP.finding_status.resolution))) :=
  ⟨by decide, by decide,
   C9_status_resolution_use_capitalize exFP "Asset A" (by decide) (by decide)⟩

/-- C10: a scan type whose collected row list has exactly one entry gets no
detailed-findings table (tables are generated only for strictly more than one
collected row), while the finding is still counted in the severity totals. -/
theorem C10_single_row_table_suppressed (l : List Finding)
    (arr : List (String × List (List String))) (st : String)
    (rows : List (List String))
    (hc : collectRows l = some arr) (hmem : (st, rows) ∈ arr)
    (h1 : rows.length = 1)
    (h5 : ∀ g ∈ l, get_finding_severity g ≤ 5) :
    (st, rows) ∉ tables_rendered arr ∧
    (∀ p ∈ arr, (p ∈ tables_rendered arr ↔ 1 < p.2.length)) ∧
    ∃ s, get_app_profile_summary_data l = some s ∧
      s.total_findings = l.length := by
  refine ⟨?_, ?_, ⟨_, get_app_spec l h5, rfl⟩⟩
  · intro hin
    have h2 := (List.mem_filter.mp hin).2
    simp [h1] at h2
  · intro p hp
    constructor
    · intro hin
      have h2 := (List.mem_filter.mp hin).2
      simpa using h2
    · intro hlen
      exact List.mem_filter.mpr ⟨hp, by simpa using hlen⟩

/-- Witness for C10: one static finding produces exactly one collected row and
its table is suppressed. -/
theorem C10_witness :
    collectRows [fstat3] = some [("STATIC", [row_fstat3])] ∧
    ("STATIC", ([row_fstat3] : List (List String))) ∈
      [("STATIC", ([row_fstat3] : List (List String)))] ∧
    ([row_fstat3] : List (List String)).length = 1 ∧
    (∀ g ∈ [fstat3], get_finding_severity g ≤ 5) ∧
    (("STATIC", ([row_fstat3] : List (List String))) ∉
       tables_rendered [("STATIC", [row_fstat3])] ∧
     (∀ p ∈ [("STATIC", ([row_fstat3] : List (List String)))],
        (p ∈ tables_rendered [("STATIC", [row_fstat3])] ↔ 1 < p.2.length)) ∧
     ∃ s, get_app_profile_summary_data [fstat3] = some s ∧
       s.total_findings = [fstat3].length) :=
  ⟨by decide, by decide, rfl, by decide,
   C10_single_row_table_suppressed [fstat3] [("STATIC", [row_fstat3])] "STATIC"
     [row_fstat3] (by decide) (by decide) rfl (by decide)⟩
